import Mathlib

/-!
Shallow embedding of `maintenance.py` from aerospike-google-maintenance:
a watch loop that long-polls the GCE metadata endpoint for maintenance
events, deduplicates repeated notifications (with optional file
persistence of the last event), and drives asinfo/asadm commands on
transitions.  Raw event text is modelled as `List Char` (`PyStr`);
process execution is modelled at the boundary as a total function from
argument vectors to captured `stdout`/`stderr`/`returncode`.
-/

namespace AGM

/-- Raw text (Python byte/str values) modelled as a list of characters. -/
abbrev PyStr := List Char

/-- Python's notion of whitespace used by `str.strip()` and `str.split()`:
space, tab, newline, carriage return, vertical tab, form feed. -/
def isPySpace (c : Char) : Bool :=
  c = ' ' || c = '\t' || c = '\n' || c = '\r' || c = '\x0b' || c = '\x0c'

/-- Python `str.strip()`: drop leading and trailing whitespace. -/
def pyStrip (l : PyStr) : PyStr :=
  ((l.dropWhile isPySpace).reverse.dropWhile isPySpace).reverse

/-- The literal `'NONE'` body / sentinel used throughout `maintenance.py`. -/
def NONE : PyStr := "NONE".data

/-- Python `str.split()` with no argument: split on whitespace runs,
discarding empty pieces.  Used on `args.options` (source lines 210, 217, 222). -/
def pySplit (s : String) : List String :=
  (s.split (fun c => isPySpace c)).filter (fun t => t ≠ "")

/-- Source line 35. -/
def ASINFO : String := "/usr/bin/asinfo"

/-- Source line 36. -/
def ASADM : String := "/usr/bin/asadm"

/-- Captured outcome of one external command, the Action Runner's boundary:
`p.communicate()` yields stdout and stderr, `p.returncode` the exit code. -/
structure CmdResult where
  stdout : String
  stderr : String
  returncode : Int
  deriving DecidableEq

/-- The process-execution boundary: each argument vector yields a captured
result.  `subprocess.Popen` + `communicate` (source lines 119-120). -/
abbrev Exec := List String → CmdResult

/-- A leveled log record emitted through the `AGM` logger. -/
inductive LogEntry where
  | error (msg : String)
  | warning (msg : String)
  | info (msg : String)
  deriving DecidableEq

/-- A propagated Python exception (the model distinguishes only that one
escaped, carrying a description). -/
inductive PyExc where
  | exc (msg : String)
  deriving DecidableEq

/-- Python `" ".join(command)` (source lines 123, 127, 130, 132). -/
def joinSpace (command : List String) : String :=
  String.intercalate " " command

/-- `run_shell_command` (source lines 118-132), translated statement by
statement into the exception monad: run the command, and if stderr is
non-empty log it and return; otherwise log stdout when non-empty, then log
an error for a non-zero exit code or a success message for a zero one.
No statement of the body raises. -/
def run_shell_command (ex : Exec) (command : List String) :
    Except PyExc (List LogEntry) :=
  let p := ex command
  if p.stderr ≠ "" then
    Except.ok [LogEntry.error ("Command: \"" ++ joinSpace command ++ "\" Error: \n" ++ p.stderr)]
  else
    Except.ok
      ((if p.stdout ≠ "" then
          [LogEntry.info ("Command: \"" ++ joinSpace command ++ "\" Output: \n" ++ p.stdout)]
        else []) ++
       (if p.returncode ≠ 0 then
          [LogEntry.error ("Command: \"" ++ joinSpace command ++ "\" returned with error code: " ++ toString p.returncode)]
        else
          [LogEntry.info ("Command \"" ++ joinSpace command ++ "\" ran successfully")]))

/-- `get_last_maintenance_event` (source lines 103-115): a missing (or
unreadable) status file yields the sentinel `'NONE'`; otherwise the file's
raw contents.  The persisted store is `none` when the file is absent. -/
def get_last_maintenance_event (store : Option PyStr) : PyStr :=
  match store with
  | none => NONE
  | some s => s

/-- `set_last_maintenance_event` (source lines 96-101): write the value to
the status file. -/
def set_last_maintenance_event (v : PyStr) : Option PyStr :=
  some v

/-- Normalization of the response body (source lines 185-191): the exact
body `'NONE'` stays `'NONE'`; any other text is stripped of surrounding
whitespace (`r.text.encode('utf-8').strip()`). -/
def normalizeEvent (text : PyStr) : PyStr :=
  if text = NONE then NONE else pyStrip text

/-- `maintenance_callback` (source lines 205-224), returning the ordered
list of argument vectors handed to `run_shell_command` together with the
log trace; an exception from a command run would propagate. -/
def maintenance_callback (ex : Exec) (options : String) (event : PyStr) :
    Except PyExc (List (List String) × List LogEntry) :=
  let asinfoQ := [ASINFO, "-v", "quiesce:"] ++ pySplit options
  let asinfoU := [ASINFO, "-v", "quiesce-undo:"] ++ pySplit options
  let asadm := [ASADM, "-e", "asinfo -v \"recluster:\""] ++ pySplit options
  let step1 : Except PyExc (List (List String) × List LogEntry) :=
    if event ≠ NONE then
      (run_shell_command ex asinfoQ).map (fun logs =>
        ([asinfoQ],
         [LogEntry.warning ("Undergoing host maintenance: " ++ String.mk event)] ++ logs ++
           [LogEntry.info "quiesce finished"]))
    else
      (run_shell_command ex asinfoU).map (fun logs =>
        ([asinfoU],
         [LogEntry.info "Finished host maintenance"] ++ logs ++
           [LogEntry.info "quiesce-undo finished"]))
  match step1 with
  | Except.error e => Except.error e
  | Except.ok r =>
    match run_shell_command ex asadm with
    | Except.error e => Except.error e
    | Except.ok logs2 =>
      Except.ok (r.1 ++ [asadm], r.2 ++ logs2 ++ [LogEntry.info "recluster finished"])

/-- The mutable state of one `wait_for_maintenance` loop: the continuation
token `last_etag`, the in-memory `last_maintenance_event`, and the contents
of the persisted status file (`none` = file absent). -/
structure LoopState where
  last_etag : String
  last_maintenance_event : PyStr
  store : Option PyStr
  deriving DecidableEq

/-- The outcome of one `requests.get` call, classified as the source's
`except` clauses do: a `TooManyRedirects`, any other `RequestException`,
or a response carrying a status code, an optional `etag` header, and a body. -/
inductive PollOutcome where
  | tooManyRedirects
  | requestException
  | response (status : Nat) (etagHdr : Option String) (body : PyStr)
  deriving DecidableEq

/-- The result of one iteration of the `while True` loop: a termination by
a re-raised `TooManyRedirects` (line 158), a re-raised `HTTPError` from
`raise_for_status` (line 180), an uncaught `KeyError` from
`r.headers['etag']` (line 182), or continuation with a new state, the
seconds slept, and the events passed to the callback this iteration. -/
inductive StepResult where
  | fatalRedirect
  | fatalHTTP (status : Nat)
  | fatalKeyError (key : String)
  | next (s : LoopState) (sleepSec : Nat) (callbackEvents : List PyStr)
  deriving DecidableEq

/-- `requests`' `raise_for_status` raises `HTTPError` exactly for status
codes in [400, 600). -/
def raise_for_status_fails (status : Nat) : Bool :=
  400 ≤ status && status < 600

/-- One iteration of the `while True` loop of `wait_for_maintenance`
(source lines 145-202), given the poll outcome for this iteration. -/
def waitStep (persist : Bool) (s : LoopState) (o : PollOutcome) : StepResult :=
  match o with
  | PollOutcome.tooManyRedirects => StepResult.fatalRedirect
  | PollOutcome.requestException => StepResult.next s 1 []
  | PollOutcome.response status etagHdr body =>
    if status = 503 then StepResult.next s 1 []
    else if raise_for_status_fails status then StepResult.fatalHTTP status
    else
      match etagHdr with
      | none => StepResult.fatalKeyError "etag"
      | some e =>
        let maintenance_event := normalizeEvent body
        let last :=
          if persist then get_last_maintenance_event s.store
          else s.last_maintenance_event
        if maintenance_event ≠ last then
          StepResult.next
            { last_etag := e,
              last_maintenance_event := maintenance_event,
              store := if persist then set_last_maintenance_event maintenance_event else s.store }
            0 [maintenance_event]
        else
          StepResult.next
            { last_etag := e, last_maintenance_event := last, store := s.store }
            0 []

/-- Start-up state of `wait_for_maintenance` (source lines 135-143):
`last_maintenance_event` seeded from the store when persistence is on and
to `'NONE'` otherwise; `last_etag = '0'`. -/
def initState (persist : Bool) (store : Option PyStr) : LoopState :=
  { last_etag := "0",
    last_maintenance_event :=
      if persist then get_last_maintenance_event store else NONE,
    store := store }

/-- Does this step result end the loop (an exception escapes)? -/
def StepResult.isTermination : StepResult → Bool
  | StepResult.next _ _ _ => false
  | _ => true

/-- Is this step result one of the two deliberate protocol-fatal re-raises
(`TooManyRedirects` or a non-503 `HTTPError`)? -/
def StepResult.isProtocolFatal : StepResult → Bool
  | StepResult.fatalRedirect => true
  | StepResult.fatalHTTP _ => true
  | _ => false

theorem length_dropWhile_le (p : Char → Bool) (l : List Char) :
    (l.dropWhile p).length ≤ l.length := by
  induction l with
  | nil => simp
  | cons a t ih =>
    rw [List.dropWhile_cons]
    split
    · exact Nat.le_trans ih (Nat.le_succ _)
    · simp

theorem pa_false_of_dropWhile_fix (p : Char → Bool) (a : Char) (t : List Char)
    (h : (a :: t).dropWhile p = a :: t) : p a = false := by
  cases hpa : p a with
  | false => rfl
  | true =>
    exfalso
    rw [List.dropWhile_cons, if_pos hpa] at h
    have hle := length_dropWhile_le p t
    rw [h] at hle
    rw [List.length_cons] at hle
    omega

theorem dropWhile_dropWhile (p : Char → Bool) (l : List Char) :
    (l.dropWhile p).dropWhile p = l.dropWhile p := by
  induction l with
  | nil => rfl
  | cons a t ih =>
    by_cases h : p a
    · simp [List.dropWhile_cons, h, ih]
    · simp [List.dropWhile_cons, h]

theorem dropWhile_append_of_neg (p : Char → Bool) (X : List Char) (a : Char)
    (h : p a = false) :
    (X ++ [a]).dropWhile p = X.dropWhile p ++ [a] := by
  induction X with
  | nil => simp [List.dropWhile_cons, h]
  | cons b t ih =>
    by_cases hb : p b
    · simp [List.dropWhile_cons, hb, ih]
    · simp [List.dropWhile_cons, hb]

theorem dropWhile_rev_dropWhile_fix (p : Char → Bool) (m : List Char)
    (hm : m.dropWhile p = m) :
    ((m.reverse.dropWhile p).reverse).dropWhile p
      = (m.reverse.dropWhile p).reverse := by
  cases m with
  | nil => rfl
  | cons a t =>
    have ha : p a = false := pa_false_of_dropWhile_fix p a t hm
    rw [List.reverse_cons, dropWhile_append_of_neg p t.reverse a ha,
      List.reverse_append]
    simp [List.dropWhile_cons, ha]

theorem pyStrip_idem (l : PyStr) : pyStrip (pyStrip l) = pyStrip l := by
  unfold pyStrip
  have hA : (l.dropWhile isPySpace).dropWhile isPySpace = l.dropWhile isPySpace :=
    dropWhile_dropWhile isPySpace l
  rw [dropWhile_rev_dropWhile_fix isPySpace (l.dropWhile isPySpace) hA]
  rw [List.reverse_reverse, dropWhile_dropWhile]

/-- The log list of a non-raising `run_shell_command` outcome. -/
def okLogs : Except PyExc (List LogEntry) → List LogEntry
  | Except.ok l => l
  | Except.error _ => []

theorem rsc_of_stderr (ex : Exec) (command : List String)
    (h : (ex command).stderr ≠ "") :
    run_shell_command ex command =
      Except.ok [LogEntry.error
        ("Command: \"" ++ joinSpace command ++ "\" Error: \n" ++ (ex command).stderr)] := by
  simp only [run_shell_command]
  rw [if_pos h]

theorem rsc_of_no_stderr (ex : Exec) (command : List String)
    (h : (ex command).stderr = "") :
    run_shell_command ex command =
      Except.ok
        ((if (ex command).stdout ≠ "" then
            [LogEntry.info ("Command: \"" ++ joinSpace command ++ "\" Output: \n" ++ (ex command).stdout)]
          else []) ++
         (if (ex command).returncode ≠ 0 then
            [LogEntry.error ("Command: \"" ++ joinSpace command ++ "\" returned with error code: " ++ toString (ex command).returncode)]
          else
            [LogEntry.info ("Command \"" ++ joinSpace command ++ "\" ran successfully")])) := by
  simp only [run_shell_command]
  rw [if_neg (by simp [h])]

theorem run_shell_command_ok (ex : Exec) (command : List String) :
    ∃ logs, run_shell_command ex command = Except.ok logs := by
  by_cases h : (ex command).stderr = ""
  · exact ⟨_, rsc_of_no_stderr ex command h⟩
  · exact ⟨_, rsc_of_stderr ex command h⟩

theorem waitStep_preserves_consistency (persist : Bool) (s : LoopState)
    (o : PollOutcome) (s2 : LoopState) (n : Nat) (cbs : List PyStr)
    (hcons : persist = true → get_last_maintenance_event s.store = s.last_maintenance_event)
    (h : waitStep persist s o = StepResult.next s2 n cbs) :
    persist = true → get_last_maintenance_event s2.store = s2.last_maintenance_event := by
  intro hp
  subst hp
  cases o with
  | tooManyRedirects => simp [waitStep] at h
  | requestException =>
    simp [waitStep] at h
    rw [← h.1]
    exact hcons rfl
  | response st hdr b =>
    by_cases h503 : st = 503
    · simp [waitStep, h503] at h
      rw [← h.1]
      exact hcons rfl
    · by_cases hrfs : raise_for_status_fails st = true
      · simp [waitStep, h503, hrfs] at h
      · cases hdr with
        | none => simp [waitStep, h503, hrfs] at h
        | some e =>
          by_cases hb : normalizeEvent b = get_last_maintenance_event s.store
          · simp [waitStep, h503, hrfs, hb] at h
            rw [← h.1]
          · simp [waitStep, h503, hrfs, hb] at h
            rw [← h.1]
            simp [set_last_maintenance_event, get_last_maintenance_event]

/-- The ordered list of argument vectors a callback run hands to the
Action Runner (empty when an exception escaped). -/
def calledCommands (r : Except PyExc (List (List String) × List LogEntry)) :
    List (List String) :=
  match r with
  | Except.ok x => x.1
  | Except.error _ => []

/-- C6: event normalization is idempotent; the raw body `'NONE'` normalizes
to the same canonical no-event value that an absent persisted store reads
as; and any other raw text is forwarded unchanged except for stripping of
surrounding whitespace. -/
theorem normalize_event_idempotent_and_sentinel (x : PyStr) :
    normalizeEvent (normalizeEvent x) = normalizeEvent x
    ∧ normalizeEvent NONE = get_last_maintenance_event none
    ∧ (x ≠ NONE → normalizeEvent x = pyStrip x) := by
  refine ⟨?_, by simp [normalizeEvent, get_last_maintenance_event], ?_⟩
  · by_cases hx : x = NONE
    · simp [normalizeEvent, hx]
    · simp only [normalizeEvent, if_neg hx]
      by_cases h2 : pyStrip x = NONE
      · rw [if_pos h2, h2]
      · rw [if_neg h2, pyStrip_idem]
  · intro hx
    simp [normalizeEvent, hx]

/-- C6 witness: the theorem applied at the concrete raw body `' MIGRATE '`. -/
theorem normalize_event_idempotent_and_sentinel_witness :
    normalizeEvent (normalizeEvent " MIGRATE ".data) = normalizeEvent " MIGRATE ".data
    ∧ normalizeEvent NONE = get_last_maintenance_event none
    ∧ (" MIGRATE ".data ≠ NONE →
        normalizeEvent " MIGRATE ".data = pyStrip " MIGRATE ".data) :=
  normalize_event_idempotent_and_sentinel " MIGRATE ".data

/-- C8: the Action Runner never raises: for every command and every captured
outcome the result is an `ok` log list; the log list is non-empty, a
non-empty stderr is logged as an error, and (with empty stderr) a non-zero
exit code is logged as an error rather than raised. -/
theorem run_shell_command_never_raises (ex : Exec) (command : List String) :
    (run_shell_command ex command).isOk = true
    ∧ okLogs (run_shell_command ex command) ≠ []
    ∧ ((ex command).stderr ≠ "" →
        LogEntry.error ("Command: \"" ++ joinSpace command ++ "\" Error: \n" ++ (ex command).stderr)
          ∈ okLogs (run_shell_command ex command))
    ∧ ((ex command).stderr = "" → (ex command).returncode ≠ 0 →
        LogEntry.error ("Command: \"" ++ joinSpace command ++ "\" returned with error code: " ++ toString (ex command).returncode)
          ∈ okLogs (run_shell_command ex command)) := by
  by_cases h : (ex command).stderr = ""
  · by_cases hrc : (ex command).returncode = 0
    · rw [rsc_of_no_stderr ex command h]
      simp [okLogs, h, hrc, Except.isOk, Except.toBool]
    · rw [rsc_of_no_stderr ex command h]
      simp [okLogs, h, hrc, Except.isOk, Except.toBool]
  · rw [rsc_of_stderr ex command h]
    simp [okLogs, h, Except.isOk, Except.toBool]

/-- C8 witness: the theorem applied to a command whose run writes `boom` to
stderr and exits 0. -/
theorem run_shell_command_never_raises_witness :
    (run_shell_command (fun _ => ⟨"", "boom", 0⟩) ["cmd"]).isOk = true
    ∧ okLogs (run_shell_command (fun _ => ⟨"", "boom", 0⟩) ["cmd"]) ≠ []
    ∧ (("boom" : String) ≠ "" →
        LogEntry.error ("Command: \"" ++ joinSpace ["cmd"] ++ "\" Error: \n" ++ "boom")
          ∈ okLogs (run_shell_command (fun _ => ⟨"", "boom", 0⟩) ["cmd"]))
    ∧ (("boom" : String) = "" → (0 : Int) ≠ 0 →
        LogEntry.error ("Command: \"" ++ joinSpace ["cmd"] ++ "\" returned with error code: " ++ toString (0 : Int))
          ∈ okLogs (run_shell_command (fun _ => ⟨"", "boom", 0⟩) ["cmd"])) :=
  run_shell_command_never_raises (fun _ => ⟨"", "boom", 0⟩) ["cmd"]

/-- C10: whenever the command writes to stderr, `run_shell_command` logs
exactly that stderr error and returns; stdout and the exit code are not
examined or logged, even when the exit code is 0. -/
theorem stderr_short_circuits (ex : Exec) (command : List String)
    (h : (ex command).stderr ≠ "") :
    run_shell_command ex command =
      Except.ok [LogEntry.error
        ("Command: \"" ++ joinSpace command ++ "\" Error: \n" ++ (ex command).stderr)] :=
  rsc_of_stderr ex command h

/-- C10 witness: a run with non-empty stdout, non-empty stderr and exit
code 0 logs solely the stderr error. -/
theorem stderr_short_circuits_witness :
    ("boom" : String) ≠ ""
    ∧ run_shell_command (fun _ => ⟨"out", "boom", 0⟩) ["cmd"] =
        Except.ok [LogEntry.error
          ("Command: \"" ++ joinSpace ["cmd"] ++ "\" Error: \n" ++ "boom")] :=
  ⟨by decide, stderr_short_circuits (fun _ => ⟨"out", "boom", 0⟩) ["cmd"] (by decide)⟩

/-- C2: on every transition the callback runs exactly one of two first
actions -- the asinfo quiesce command when the new event is not `'NONE'`,
the asinfo quiesce-undo command when it is, each with the whitespace-split
passthrough options appended -- and then always runs the asadm recluster
command, for every possible outcome of the first action (any exit code,
any stderr). -/
theorem maintenance_callback_actions (ex : Exec) (options : String) (event : PyStr) :
    calledCommands (maintenance_callback ex options event) =
      [(if event = NONE then [ASINFO, "-v", "quiesce-undo:"] ++ pySplit options
        else [ASINFO, "-v", "quiesce:"] ++ pySplit options),
       [ASADM, "-e", "asinfo -v \"recluster:\""] ++ pySplit options]
    ∧ (maintenance_callback ex options event).isOk = true := by
  obtain ⟨l1, h1⟩ := run_shell_command_ok ex (ASINFO :: "-v" :: "quiesce:" :: pySplit options)
  obtain ⟨l2, h2⟩ := run_shell_command_ok ex (ASINFO :: "-v" :: "quiesce-undo:" :: pySplit options)
  obtain ⟨l3, h3⟩ := run_shell_command_ok ex (ASADM :: "-e" :: "asinfo -v \"recluster:\"" :: pySplit options)
  by_cases he : event = NONE
  · simp [maintenance_callback, calledCommands, he, h2, h3, Except.map, Except.isOk, Except.toBool]
  · simp [maintenance_callback, calledCommands, he, h1, h3, Except.map, Except.isOk, Except.toBool]

/-- C1: on every successful poll iteration (status not 503 and not an HTTP
error, etag header present), the callback is invoked exactly when the
normalized body differs from the previously observed event (the persisted
store agreeing with memory when persistence is enabled, an absent store
reading as the `'NONE'` sentinel); in particular a response repeating the
current event never invokes it. -/
theorem callback_iff_event_changed (persist : Bool) (s : LoopState)
    (st : Nat) (e : String) (b : PyStr)
    (h503 : st ≠ 503) (hrfs : raise_for_status_fails st = false)
    (hcons : persist = true → get_last_maintenance_event s.store = s.last_maintenance_event) :
    ∃ s2 n cbs,
      waitStep persist s (PollOutcome.response st (some e) b) = StepResult.next s2 n cbs
      ∧ (cbs ≠ [] ↔ normalizeEvent b ≠ s.last_maintenance_event)
      ∧ (normalizeEvent b = s.last_maintenance_event → cbs = []) := by
  have hlast :
      (if persist then get_last_maintenance_event s.store else s.last_maintenance_event)
        = s.last_maintenance_event := by
    cases persist
    · simp
    · simpa using hcons rfl
  by_cases hb : normalizeEvent b = s.last_maintenance_event
  · refine ⟨⟨e, s.last_maintenance_event, s.store⟩, 0, [], ?_, by simp [hb], fun _ => rfl⟩
    simp only [waitStep, h503, hrfs, hlast]
    simp [hb]
  · refine ⟨⟨e, normalizeEvent b,
      if persist then set_last_maintenance_event (normalizeEvent b) else s.store⟩,
      0, [normalizeEvent b], ?_, by simp [hb], fun h => absurd h hb⟩
    simp only [waitStep, h503, hrfs, hlast]
    simp [hb]

/-- C1 witness: the theorem applied with persistence off, current event
`'NONE'`, and a poll returning `MIGRATE_ON_HOST_MAINTENANCE` with status
200 and etag `'1'`. -/
theorem callback_iff_event_changed_witness :
    (200 : Nat) ≠ 503
    ∧ raise_for_status_fails 200 = false
    ∧ ∃ s2 n cbs,
        waitStep false ⟨"0", NONE, none⟩
            (PollOutcome.response 200 (some "1") "MIGRATE_ON_HOST_MAINTENANCE".data)
          = StepResult.next s2 n cbs
        ∧ (cbs ≠ [] ↔ normalizeEvent "MIGRATE_ON_HOST_MAINTENANCE".data
            ≠ (⟨"0", NONE, none⟩ : LoopState).last_maintenance_event)
        ∧ (normalizeEvent "MIGRATE_ON_HOST_MAINTENANCE".data
            = (⟨"0", NONE, none⟩ : LoopState).last_maintenance_event → cbs = []) :=
  ⟨by decide, by decide,
    callback_iff_event_changed false ⟨"0", NONE, none⟩ 200 "1"
      "MIGRATE_ON_HOST_MAINTENANCE".data (by decide) (by decide)
      (fun h => absurd h (by decide))⟩

/-- C3 counterexample: a response that passes the HTTP status checks but
lacks the etag header terminates the loop (uncaught KeyError at the header
lookup), although it is neither a too-many-redirects nor an HTTP-error
termination — refuting that the protocol-fatal conditions are the only way
the loop ends. -/
theorem loop_termination_counterexample :
    (waitStep false ⟨"0", NONE, none⟩ (PollOutcome.response 200 none NONE)).isTermination = true
    ∧ (waitStep false ⟨"0", NONE, none⟩ (PollOutcome.response 200 none NONE)).isProtocolFatal = false := by
  decide

/-- C3 amended: too-many-redirects re-raises immediately as does any HTTP
error status other than 503, with zero retries; and a step ends the loop
exactly when the outcome is too-many-redirects, a non-503 HTTP error
status, or a status-check-passing response lacking the etag header
(uncaught KeyError). -/
theorem loop_termination_classified (persist : Bool) (s : LoopState) (o : PollOutcome)
    (st : Nat) (hdr : Option String) (b : PyStr)
    (h503 : st ≠ 503) (hrfs : raise_for_status_fails st = true) :
    waitStep persist s PollOutcome.tooManyRedirects = StepResult.fatalRedirect
    ∧ waitStep persist s (PollOutcome.response st hdr b) = StepResult.fatalHTTP st
    ∧ ((waitStep persist s o).isTermination = true ↔
        (o = PollOutcome.tooManyRedirects
         ∨ (∃ st2 hdr2 b2, o = PollOutcome.response st2 hdr2 b2
              ∧ st2 ≠ 503 ∧ raise_for_status_fails st2 = true)
         ∨ (∃ st2 b2, o = PollOutcome.response st2 none b2
              ∧ st2 ≠ 503 ∧ raise_for_status_fails st2 = false))) := by
  refine ⟨rfl, by simp [waitStep, h503, hrfs], ?_⟩
  cases o with
  | tooManyRedirects => simp [waitStep, StepResult.isTermination]
  | requestException => simp [waitStep, StepResult.isTermination]
  | response st2 hdr2 b2 =>
    by_cases h5 : st2 = 503
    · simp [waitStep, StepResult.isTermination, h5]
    · by_cases hr : raise_for_status_fails st2 = true
      · simp [waitStep, StepResult.isTermination, h5, hr]
      · cases hdr2 with
        | none =>
          simp [waitStep, StepResult.isTermination, h5, hr]
        | some e2 =>
          by_cases hb : normalizeEvent b2 =
              (if persist then get_last_maintenance_event s.store else s.last_maintenance_event)
          · simp [waitStep, StepResult.isTermination, h5, hr, hb]
          · simp [waitStep, StepResult.isTermination, h5, hr, hb]

/-- C3 amended witness: the theorem applied at a 404 response and a
request-exception outcome. -/
theorem loop_termination_classified_witness :
    (404 : Nat) ≠ 503
    ∧ raise_for_status_fails 404 = true
    ∧ (waitStep false ⟨"0", NONE, none⟩ PollOutcome.tooManyRedirects = StepResult.fatalRedirect
       ∧ waitStep false ⟨"0", NONE, none⟩ (PollOutcome.response 404 none NONE) = StepResult.fatalHTTP 404
       ∧ ((waitStep false ⟨"0", NONE, none⟩ PollOutcome.requestException).isTermination = true ↔
           (PollOutcome.requestException = PollOutcome.tooManyRedirects
            ∨ (∃ st2 hdr2 b2, PollOutcome.requestException = PollOutcome.response st2 hdr2 b2
                 ∧ st2 ≠ 503 ∧ raise_for_status_fails st2 = true)
            ∨ (∃ st2 b2, PollOutcome.requestException = PollOutcome.response st2 none b2
                 ∧ st2 ≠ 503 ∧ raise_for_status_fails st2 = false)))) :=
  ⟨by decide, by decide,
    loop_termination_classified false ⟨"0", NONE, none⟩ PollOutcome.requestException
      404 none NONE (by decide) (by decide)⟩

/-- C4: a transport-level request exception (other than too-many-redirects)
or an HTTP 503 response leaves the loop state — the continuation token in
particular — unchanged, and the loop sleeps 1 second before reissuing. -/
theorem retry_preserves_token (persist : Bool) (s : LoopState)
    (hdr : Option String) (b : PyStr) :
    waitStep persist s PollOutcome.requestException = StepResult.next s 1 []
    ∧ waitStep persist s (PollOutcome.response 503 hdr b) = StepResult.next s 1 [] := by
  constructor
  · rfl
  · simp [waitStep]

/-- C5: on every response that passes the HTTP status checks, the
continuation token is replaced by the response's etag header value, whether
or not a transition is detected on that iteration. -/
theorem success_updates_token (persist : Bool) (s : LoopState)
    (st : Nat) (e : String) (b : PyStr)
    (h503 : st ≠ 503) (hrfs : raise_for_status_fails st = false) :
    ∃ s2 n cbs,
      waitStep persist s (PollOutcome.response st (some e) b) = StepResult.next s2 n cbs
      ∧ s2.last_etag = e := by
  by_cases hb : normalizeEvent b =
      (if persist then get_last_maintenance_event s.store else s.last_maintenance_event)
  · refine ⟨⟨e, (if persist then get_last_maintenance_event s.store else s.last_maintenance_event), s.store⟩, 0, [], ?_, rfl⟩
    simp only [waitStep, h503, hrfs]
    simp [hb]
  · refine ⟨⟨e, normalizeEvent b,
      if persist then set_last_maintenance_event (normalizeEvent b) else s.store⟩,
      0, [normalizeEvent b], ?_, rfl⟩
    simp only [waitStep, h503, hrfs]
    simp [hb]

/-- C5 witness: the theorem applied with persistence off and a 200 response
whose etag is `'7'`. -/
theorem success_updates_token_witness :
    (200 : Nat) ≠ 503
    ∧ raise_for_status_fails 200 = false
    ∧ ∃ s2 n cbs,
        waitStep false ⟨"0", NONE, none⟩ (PollOutcome.response 200 (some "7") NONE)
          = StepResult.next s2 n cbs
        ∧ s2.last_etag = "7" :=
  ⟨by decide, by decide,
    success_updates_token false ⟨"0", NONE, none⟩ 200 "7" NONE (by decide) (by decide)⟩

/-- C7: with persistence disabled, start-up seeds the last-observed event
to the `'NONE'` sentinel regardless of the persisted file; with persistence
enabled it is seeded from the persisted store, and a restart whose
persisted value equals the normalized event returned by the first live
poll fires no transition. -/
theorem startup_seeding_no_retrigger (store : Option PyStr) (v : PyStr)
    (st : Nat) (e : String) (b : PyStr)
    (h503 : st ≠ 503) (hrfs : raise_for_status_fails st = false)
    (hv : normalizeEvent b = v) :
    (initState false store).last_maintenance_event = NONE
    ∧ (initState true store).last_maintenance_event = get_last_maintenance_event store
    ∧ ∃ s2 n, waitStep true (initState true (some v)) (PollOutcome.response st (some e) b)
        = StepResult.next s2 n [] := by
  refine ⟨rfl, rfl, ⟨e, v, some v⟩, 0, ?_⟩
  simp only [waitStep, h503, hrfs]
  simp [initState, hv, get_last_maintenance_event]

/-- C7 witness: the theorem applied with persisted value
`MIGRATE_ON_HOST_MAINTENANCE` and a first live poll returning the same
event with status 200. -/
theorem startup_seeding_no_retrigger_witness :
    (200 : Nat) ≠ 503
    ∧ raise_for_status_fails 200 = false
    ∧ normalizeEvent "MIGRATE_ON_HOST_MAINTENANCE".data = "MIGRATE_ON_HOST_MAINTENANCE".data
    ∧ ((initState false (some "TERMINATE_ON_HOST_MAINTENANCE".data)).last_maintenance_event = NONE
       ∧ (initState true (some "TERMINATE_ON_HOST_MAINTENANCE".data)).last_maintenance_event
           = get_last_maintenance_event (some "TERMINATE_ON_HOST_MAINTENANCE".data)
       ∧ ∃ s2 n, waitStep true (initState true (some "MIGRATE_ON_HOST_MAINTENANCE".data))
             (PollOutcome.response 200 (some "1") "MIGRATE_ON_HOST_MAINTENANCE".data)
           = StepResult.next s2 n []) :=
  ⟨by decide, by decide, by decide,
    startup_seeding_no_retrigger (some "TERMINATE_ON_HOST_MAINTENANCE".data)
      "MIGRATE_ON_HOST_MAINTENANCE".data 200 "1" "MIGRATE_ON_HOST_MAINTENANCE".data
      (by decide) (by decide) (by decide)⟩

/-- C9: a response that passes the status checks but lacks an `etag`
header makes the loop raise an uncaught KeyError at the header lookup,
terminating the process. -/
theorem missing_etag_key_error (persist : Bool) (s : LoopState)
    (st : Nat) (b : PyStr)
    (h503 : st ≠ 503) (hrfs : raise_for_status_fails st = false) :
    waitStep persist s (PollOutcome.response st none b) = StepResult.fatalKeyError "etag" := by
  simp [waitStep, h503, hrfs]

/-- C9 witness: the theorem applied at a 200 response with no etag header. -/
theorem missing_etag_key_error_witness :
    (200 : Nat) ≠ 503
    ∧ raise_for_status_fails 200 = false
    ∧ waitStep false ⟨"0", NONE, none⟩ (PollOutcome.response 200 none NONE)
        = StepResult.fatalKeyError "etag" :=
  ⟨by decide, by decide,
    missing_etag_key_error false ⟨"0", NONE, none⟩ 200 NONE (by decide) (by decide)⟩

end AGM
